import Mathlib

/-
Verification development for the TMDb interface core of TitleCardMaker
(modules/TMDbInterface.py): the blacklist/backoff cache, the load-time
blacklist repair pass, the series-ID resolver, the tiered episode matcher,
and the image/logo selectors.

Conventions of the shallow embedding:
  - Python datetime values are modelled as Int seconds; timedelta(days=1)
    is the constant oneDay.  datetime.now() is passed explicitly as a
    parameter now.
  - Python dicts used as keyed tables are modelled as association lists
    (alookup / aset below), with first-key-wins lookup like dict access.
  - Provider responses are modelled as inductive types: a response dict
    carrying the success False marker maps to a notFound constructor and a
    well-formed payload maps to a found constructor.
  - Query types are the closed set image / title / logo that the code
    passes as strings; after the repair pass all three sections of the
    blacklist exist, so the blacklist is a record with three sections.
-/

set_option autoImplicit false

/-- First-match association-list lookup, the model of Python dict access. -/
def alookup {α β : Type} [DecidableEq α] : List (α × β) → α → Option β
  | [], _ => none
  | (k, v) :: rest, key => if k = key then some v else alookup rest key

/-- Association-list update, the model of Python dict assignment. -/
def aset {α β : Type} [DecidableEq α] : List (α × β) → α → β → List (α × β)
  | [], key, val => [(key, val)]
  | (k, v) :: rest, key, val =>
    if k = key then (key, val) :: rest else (k, v) :: aset rest key val

/-- One day, in the Int-seconds model of datetime; timedelta(days=1). -/
def oneDay : Int := 86400

/-- Closed set of blacklist query types used by TMDbInterface. -/
inductive QueryType where
  | image
  | title
  | logo
deriving DecidableEq

/-- A well-formed blacklist record: failures count and next eligible time. -/
structure BlacklistEntry where
  failures : Int
  next : Int
deriving DecidableEq

/-- One query-type section of the blacklist: key to entry. -/
abbrev EntryMap := List (String × BlacklistEntry)

/-- The in-memory blacklist after the repair pass: all three sections exist. -/
structure Blacklist where
  image : EntryMap
  title : EntryMap
  logo : EntryMap
deriving DecidableEq

/-- Section selection, the model of blacklist[query_type]. -/
def Blacklist.entries : Blacklist → QueryType → EntryMap
  | bl, .image => bl.image
  | bl, .title => bl.title
  | bl, .logo => bl.logo

/-- Replace one section of the blacklist. -/
def Blacklist.setEntries : Blacklist → QueryType → EntryMap → Blacklist
  | bl, .image, m => ⟨m, bl.title, bl.logo⟩
  | bl, .title, m => ⟨bl.image, m, bl.logo⟩
  | bl, .logo, m => ⟨bl.image, bl.title, m⟩

/-- TMDbInterface.__update_blacklist, the recordFailure operation
(TMDbInterface.py lines 143-176), for an already-computed key.  If the key
was previously indexed and next has passed, increment the count and set
next to one day from now; within the waiting window it is a no-op; an
absent key is inserted with one failure and next one day from now. -/
def update_blacklist (now : Int) (qt : QueryType) (key : String) (bl : Blacklist) : Blacklist :=
  let later := now + oneDay
  match alookup (bl.entries qt) key with
  | some e =>
    if now ≥ e.next then
      bl.setEntries qt (aset (bl.entries qt) key ⟨e.failures + 1, later⟩)
    else
      bl
  | none => bl.setEntries qt (aset (bl.entries qt) key ⟨1, later⟩)

/-- TMDbInterface.__is_blacklisted (TMDbInterface.py lines 179-213) for an
already-computed key.  retry is preferences.tmdb_retry_count.  The code
also returns False when the query-type section is missing entirely; in this
model the three sections always exist, matching the post-repair state. -/
def is_blacklisted (now : Int) (retry : Int) (bl : Blacklist) (qt : QueryType) (key : String) : Bool :=
  match alookup (bl.entries qt) key with
  | none => false
  | some e => if e.failures > retry then true else decide (now < e.next)

/-- A raw YAML scalar as far as the repair pass inspects it: an int, a
datetime, or anything else. -/
inductive RawField where
  | rint (n : Int)
  | rdt (t : Int)
  | rother
deriving DecidableEq

/-- A raw blacklist item as loaded from file: either not a dict at all, or
a dict whose failures and next slots may each be absent or of any type. -/
inductive RawEntry where
  | notDict
  | entry (failures : Option RawField) (nxt : Option RawField)
deriving DecidableEq

/-- The entry-fixing chain of TMDbInterface.__fix_blacklist (lines
122-138).  The five branches are an if / elif chain, so at most one
repair fires per entry: not a dict; failures absent; failures not an int;
next absent; next not a datetime. -/
def fixEntry (now : Int) : RawEntry → RawEntry
  | .notDict => .entry (some (.rint 1)) (some (.rdt now))
  | .entry none nxt => .entry (some (.rint 1)) nxt
  | .entry (some (.rint k)) nxt =>
    match nxt with
    | none => .entry (some (.rint k)) (some (.rdt now))
    | some (.rdt t) => .entry (some (.rint k)) (some (.rdt t))
    | some _ => .entry (some (.rint k)) (some (.rdt now))
  | .entry (some _) nxt => .entry (some (.rint 1)) nxt

/-- An entry is well formed when it is a dict with an int failures and a
datetime next, which is what __is_blacklisted and __update_blacklist need. -/
def wellFormedRawEntry : RawEntry → Bool
  | .entry (some (.rint _)) (some (.rdt _)) => true
  | _ => false

/-- Repair of one query-type section: a missing section or one that is not
a dict is replaced by an empty dict; entries of a present section are run
through fixEntry. -/
def fixSectionEntries (now : Int) : Option (List (String × RawEntry)) → List (String × RawEntry)
  | none => []
  | some l => l.map (fun p => (p.1, fixEntry now p.2))

/-- A loaded blacklist file in the standard shape: the three
query-type slots, each either a dict of raw entries or absent/non-dict
(modelled as none). -/
structure RawBlacklistDict where
  image : Option (List (String × RawEntry))
  title : Option (List (String × RawEntry))
  logo : Option (List (String × RawEntry))
deriving DecidableEq

/-- The result of the repair pass: three sections of raw entries. -/
structure FixedRawBlacklist where
  image : List (String × RawEntry)
  title : List (String × RawEntry)
  logo : List (String × RawEntry)
deriving DecidableEq

/-- TMDbInterface.__fix_blacklist (lines 100-140).  A top-level value that
is not a dict (none here) becomes the empty blacklist; otherwise each of
the three sections is repaired in place. -/
def fixBlacklist (now : Int) : Option RawBlacklistDict → FixedRawBlacklist
  | none => ⟨[], [], []⟩
  | some d => ⟨fixSectionEntries now d.image, fixSectionEntries now d.title,
               fixSectionEntries now d.logo⟩

/-- One still-image candidate from the stills array of the episode images
response: file_path, width, height, vote_average (after int conversion). -/
structure TmdbImage where
  file_path : String
  width : Nat
  height : Nat
  vote_average : Nat
deriving DecidableEq

/-- Modelled from the spec: preferences.meets_minimum_resolution is outside
the sources; the spec reads "filter out candidates below the minimum
resolution", so a candidate passes when both dimensions reach the minima. -/
def meets_minimum_resolution (minW minH w h : Nat) : Bool :=
  decide (minW ≤ w) && decide (minH ≤ h)

/-- The best_image accumulator dict of __determine_best_image:
index, pixels, score. -/
structure BestAcc where
  idx : Nat
  pixels : Nat
  score : Nat
deriving DecidableEq

/-- The selection loop of TMDbInterface.__determine_best_image (lines
410-430): skip candidates below the minimum resolution, otherwise replace
the accumulator on strictly more pixels, or on equal pixels and strictly
greater score.  i is the enumerate counter. -/
def determineLoop (minW minH : Nat) : List TmdbImage → Nat → BestAcc → Bool → BestAcc × Bool
  | [], _, best, valid => (best, valid)
  | img :: rest, i, best, valid =>
    if meets_minimum_resolution minW minH img.width img.height then
      let pixels := img.height * img.width
      let score := img.vote_average
      let best' :=
        if pixels > best.pixels then ⟨i, pixels, score⟩
        else if pixels = best.pixels ∧ score > best.score then ⟨i, pixels, score⟩
        else best
      determineLoop minW minH rest (i + 1) best' true
    else
      determineLoop minW minH rest (i + 1) best valid

/-- TMDbInterface.__determine_best_image (lines 397-432): run the loop
from the dummy accumulator index 0 / pixels 0 / score 0, then return
images[best index] if any candidate passed the resolution filter, else
None. -/
def determine_best_image (minW minH : Nat) (images : List TmdbImage) : Option TmdbImage :=
  let r := determineLoop minW minH images 0 ⟨0, 0, 0⟩ false
  if r.2 then images.get? r.1.idx else none

/-- Modelled from the spec words for pickBestImage: keep the incumbent
unless the challenger has strictly more pixels, or equal pixels and
strictly greater score (strict-greater comparisons only, so the
first-encountered candidate wins all ties). -/
def pickStep (best c : TmdbImage) : TmdbImage :=
  if c.height * c.width > best.height * best.width then c
  else if c.height * c.width = best.height * best.width ∧ c.vote_average > best.vote_average then c
  else best

/-- Modelled from the spec words for pickBestImage applied to the
survivor list: None on no survivors, else the fold of pickStep from the
first survivor. -/
def pickBestImageSpec : List TmdbImage → Option TmdbImage
  | [] => none
  | c :: rest => some (rest.foldl pickStep c)

/-- r beats-or-ties c in the selection order: more pixels, or equal pixels
and at least the score. -/
def lexGe (r c : TmdbImage) : Prop :=
  c.height * c.width < r.height * r.width ∨
    (c.height * c.width = r.height * r.width ∧ c.vote_average ≤ r.vote_average)

/-- One logo candidate from the logos array of the series images
response. -/
structure Logo where
  file_path : String
  iso_639_1 : String
  width : Nat
  height : Nat
deriving DecidableEq

/-- Python str.endswith via the underlying character lists. -/
def strEndsWith (s suffix : String) : Bool :=
  List.isSuffixOf suffix.data s.data

/-- file_path.endswith on the png/svg pair: the transparent-format filter
of get_series_logo. -/
def logoTransparent (l : Logo) : Bool :=
  strEndsWith l.file_path ".png" || strEndsWith l.file_path ".svg"

/-- file_path.endswith svg: the svg short-circuit test of
get_series_logo. -/
def logoSvg (l : Logo) : Bool :=
  strEndsWith l.file_path ".svg"

/-- The selection loop of TMDbInterface.get_series_logo (lines 607-632):
best starts as the raw first element of the logos list; non-png/svg and
non-english candidates are skipped; an svg survivor is returned at once;
a png survivor replaces best only on strictly larger pixel count. -/
def pickLogoLoop : List Logo → Logo → Bool → Option Logo
  | [], best, valid => if valid then some best else none
  | img :: rest, best, valid =>
    if ¬ (logoTransparent img = true) then pickLogoLoop rest best valid
    else if img.iso_639_1 ≠ "en" then pickLogoLoop rest best valid
    else if logoSvg img then some img
    else pickLogoLoop rest (if img.width * img.height > best.width * best.height then img else best) true

/-- The logo-selection portion of TMDbInterface.get_series_logo (lines
602-634): an empty logos list yields None before the loop; otherwise best
is initialized to logos[0] and the loop runs over the whole list. -/
def get_series_logo_pick : List Logo → Option Logo
  | [] => none
  | first :: rest => pickLogoLoop (first :: rest) first false

/-- One episode record of a season or episode response: name,
season_number, episode_number. -/
structure TmdbEpisode where
  name : String
  season_number : Nat
  episode_number : Nat
deriving DecidableEq

/-- The season/episode dict that __find_episode returns. -/
structure EpIndex where
  season : Nat
  episode : Nat
deriving DecidableEq

/-- A season fetch response: the success False shape, or an episodes
list. -/
inductive SeasonResp where
  | notFound
  | found (episodes : List TmdbEpisode)
deriving DecidableEq

/-- The inner loop of Tier 4 of __find_episode (lines 386-392): the first
episode of the season whose name the title predicate accepts is returned
as its season/episode index.  titleMatches stands for the predicate
induced by episode_info.title (the Title module is outside the sources). -/
def firstTitleMatch (titleMatches : String → Bool) : List TmdbEpisode → Option EpIndex
  | [] => none
  | e :: rest =>
    if titleMatches e.name then some ⟨e.season_number, e.episode_number⟩
    else firstTitleMatch titleMatches rest

/-- The Tier 4 season loop of __find_episode (lines 375-394), scanning k
consecutive seasons starting at s: a season fetch carrying success False
aborts the whole search with None; a fetched season is scanned for the
first title match. -/
def tier4ScanFrom (fetch : Nat → SeasonResp) (titleMatches : String → Bool) : Nat → Nat → Option EpIndex
  | _, 0 => none
  | s, k + 1 =>
    match fetch s with
    | .notFound => none
    | .found eps =>
      match firstTitleMatch titleMatches eps with
      | some r => some r
      | none => tier4ScanFrom fetch titleMatches (s + 1) k

/-- Tier 4 of __find_episode: for season in range(0, season_number + 1). -/
def tier4Scan (fetch : Nat → SeasonResp) (titleMatches : String → Bool) (seasonNumber : Nat) : Option EpIndex :=
  tier4ScanFrom fetch titleMatches 0 (seasonNumber + 1)

/-- An episode detail response: the success False shape, or an episode
record (which carries season_number, so the break test of the absolute
scan sees it). -/
inductive EpDetailResp where
  | notFound
  | found (info : TmdbEpisode)
deriving DecidableEq

/-- The absolute-number season loop of Tier 2 of __find_episode (lines
348-353): for season in range(0, season_number + 1) reversed, query season
s with the absolute number as episode index, breaking at the first
response that carries season_number.  After the loop the last response
queried (season 0) stands. -/
def absDescendScan (q : Nat → Nat → EpDetailResp) (absNumber : Nat) : Nat → EpDetailResp
  | 0 => q 0 absNumber
  | s + 1 =>
    match q (s + 1) absNumber with
    | .found info => .found info
    | .notFound => absDescendScan q absNumber s

/-- Tier 2 of __find_episode (lines 342-353) after the direct
season/episode query: the absolute-number fallback runs only when the
direct response carries success False and abs_number is not None;
otherwise the direct response stands. -/
def tier2AbsFallback (direct : EpDetailResp) (q : Nat → Nat → EpDetailResp)
    (absNumber : Option Nat) (seasonNumber : Nat) : EpDetailResp :=
  match direct, absNumber with
  | .notFound, some a => absDescendScan q a seasonNumber
  | d, _ => d

/-- SeriesInfo as far as __set_tmdb_id uses it: name, year, an optional
TVDb ID, and the mutable TMDb ID. -/
structure SeriesInfo where
  name : String
  year : Nat
  tvdb_id : Option Nat
  tmdb_id : Option Nat
deriving DecidableEq

/-- Modelled from the spec: the series natural key name at year
(SeriesInfo.full_name comes from a module outside the sources). -/
def SeriesInfo.full_name (s : SeriesInfo) : String :=
  s.name ++ "@" ++ toString s.year

/-- EpisodeInfo as far as the TMDb interface uses it; key is the episode
part of blacklist keys (EpisodeInfo.key comes from a module outside the
sources and is kept abstract as a string field). -/
structure EpisodeInfo where
  key : String
  season_number : Nat
  episode_number : Nat
  abs_number : Option Nat
deriving DecidableEq

/-- Blacklist keys (lines 156-159 and 196-200): the series full name for
logo queries, otherwise full name dash episode key. -/
def blacklistKey (qt : QueryType) (series : SeriesInfo) (ep : EpisodeInfo) : String :=
  match qt with
  | .logo => series.full_name
  | _ => series.full_name ++ "-" ++ ep.key

/-- The persisted ID map: names maps full names to TMDb IDs, ids maps
TVDb IDs to TMDb IDs (the name and id tables of __id_map). -/
structure IdMap where
  names : List (String × Nat)
  ids : List (Nat × Nat)
deriving DecidableEq

/-- The mutable interface state that the resolver and the blacklist cache
share: the ID map and the blacklist. -/
structure DBState where
  id_map : IdMap
  blacklist : Blacklist
deriving DecidableEq

/-- The provider responses that one __set_tmdb_id call can consume:
tv_results IDs of the find-by-TVDb lookup, and total_results plus result
IDs of the title/year search. -/
structure TmdbIdEnv where
  tv_results : List Nat
  total_results : Nat
  search_results : List Nat
deriving DecidableEq

/-- Outcome of __set_tmdb_id: the (possibly enriched) series, the new
state, and whether the title/year search request was issued. -/
structure ResolveResult where
  series : SeriesInfo
  state : DBState
  searched : Bool
deriving DecidableEq

/-- TMDbInterface.__add_id_to_map (lines 216-233): map the full name to
the TMDb ID and, when a TVDb ID is present, map it as well. -/
def add_id_to_map (fullName : String) (tvdbId : Option Nat) (tmdbId : Nat) (m : IdMap) : IdMap :=
  let m1 : IdMap := ⟨aset m.names fullName tmdbId, m.ids⟩
  match tvdbId with
  | some tv => ⟨m1.names, aset m1.ids tv tmdbId⟩
  | none => m1

/-- The title/year search step of __set_tmdb_id (lines 277-292): zero
total_results is logged as an error and changes nothing; otherwise the
first result ID is adopted and recorded.  A positive total with an empty
result list is a provider-inconsistent response on which the Python
indexes out of range; it is modelled as changing nothing.  The searched
flag records that the search request was issued. -/
def tmdb_search_step (env : TmdbIdEnv) (series : SeriesInfo) (st : DBState) : ResolveResult :=
  if env.total_results = 0 then ⟨series, st, true⟩
  else
    match env.search_results with
    | [] => ⟨series, st, true⟩
    | r :: _ =>
      let series' : SeriesInfo := ⟨series.name, series.year, series.tvdb_id, some r⟩
      ⟨series', ⟨add_id_to_map series'.full_name series'.tvdb_id r st.id_map, st.blacklist⟩, true⟩

/-- The find-by-TVDb step of __set_tmdb_id (lines 256-275): only taken
when a TVDb ID is present; exactly one tv_results entry is adopted and
recorded, zero or several fall through to the title/year search. -/
def tmdb_find_step (env : TmdbIdEnv) (series : SeriesInfo) (st : DBState) : ResolveResult :=
  match series.tvdb_id with
  | none => tmdb_search_step env series st
  | some _ =>
    match env.tv_results with
    | [r] =>
      let series' : SeriesInfo := ⟨series.name, series.year, series.tvdb_id, some r⟩
      ⟨series', ⟨add_id_to_map series'.full_name series'.tvdb_id r st.id_map, st.blacklist⟩, false⟩
    | _ => tmdb_search_step env series st

/-- The name-map step of __set_tmdb_id (lines 252-254): the walrus test is
Python truthiness, so a mapped ID of 0 falls through to the network
steps. -/
def tmdb_name_step (env : TmdbIdEnv) (series : SeriesInfo) (st : DBState) : ResolveResult :=
  match alookup st.id_map.names series.full_name with
  | some id0 =>
    if id0 ≠ 0 then ⟨⟨series.name, series.year, series.tvdb_id, some id0⟩, st, false⟩
    else tmdb_find_step env series st
  | none => tmdb_find_step env series st

/-- TMDbInterface.__set_tmdb_id (lines 236-292), the resolveSeriesID
operation: mapped TVDb ID first, then the name map, then the find-by-TVDb
lookup, then the title/year search. -/
def set_tmdb_id (env : TmdbIdEnv) (series : SeriesInfo) (st : DBState) : ResolveResult :=
  match series.tvdb_id with
  | some tv =>
    match alookup st.id_map.ids tv with
    | some mapped => ⟨⟨series.name, series.year, series.tvdb_id, some mapped⟩, st, false⟩
    | none => tmdb_name_step env series st
  | none => tmdb_name_step env series st

/-- TMDbInterface.GENERIC_TITLE_FORMATS (lines 27-50): the fixed
per-language generic episode title templates, keyed by bare two-letter
language codes. -/
def GENERIC_TITLE_FORMATS : List (String × String) :=
  [ ("ar", "الحلقة \x7bnumber\x7d"),
    ("zh", "第 \x7bnumber\x7d 集"),
    ("cs", "\x7bnumber\x7d. epizoda"),
    ("en", "Episode \x7bnumber\x7d"),
    ("fr", "Épisode \x7bnumber\x7d"),
    ("de", "Episode \x7bnumber\x7d"),
    ("he", "פרק \x7bnumber\x7d"),
    ("hu", "\x7bnumber\x7d. epizód"),
    ("id", "Episode \x7bnumber\x7d"),
    ("it", "Episodio \x7bnumber\x7d"),
    ("ja", "第\x7bnumber\x7d話"),
    ("ko", "에피소드 \x7bnumber\x7d"),
    ("pl", "Odcinek \x7bnumber\x7d"),
    ("pt", "Episódio \x7bnumber\x7d"),
    ("ro", "Episodul \x7bnumber\x7d"),
    ("ru", "Эпизод \x7bnumber\x7d"),
    ("sk", "Epizóda \x7bnumber\x7d"),
    ("es", "Episodio \x7bnumber\x7d"),
    ("th", "Episode \x7bnumber\x7d"),
    ("tr", "\x7bnumber\x7d. Bölüm"),
    ("uk", "Серія \x7bnumber\x7d"),
    ("vi", "Episode \x7bnumber\x7d") ]

/-- template.format(number=n) for the templates above, whose only
placeholder is the number slot. -/
def formatNumber (template : String) (n : Nat) : String :=
  template.replace "\x7bnumber\x7d" (toString n)

/-- Python in-test for a dash character, via the underlying character
list: the shape test for region-qualified codes such as en-US. -/
def hasDash (s : String) : Bool :=
  s.data.contains '-'

/-- TMDbInterface.__is_generic_title (lines 435-462): a language code not
in the table (or a falsy template) is never generic; otherwise the title
is compared with the template formatted with the episode number and, when
known, the absolute number. -/
def is_generic_title (title lang : String) (ep : EpisodeInfo) : Bool :=
  match alookup GENERIC_TITLE_FORMATS lang with
  | none => false
  | some g =>
    if g = "" then false
    else
      match ep.abs_number with
      | some a =>
        decide (title = formatNumber g ep.episode_number) ||
          decide (title = formatNumber g a)
      | none => decide (title = formatNumber g ep.episode_number)

/-- A localized episode detail response: the success False shape, or a
payload carrying the translated name. -/
inductive TitleResp where
  | notFound
  | found (name : String)
deriving DecidableEq

/-- TMDbInterface.get_episode_title (lines 529-577).  The network results
one call can consume are passed in: the __find_episode outcome findResult
and the localized detail response resp.  Outcome: the returned title (None
on every failure path) and the state after the call. -/
def get_episode_title (now : Int) (retry : Int) (env : TmdbIdEnv) (findResult : Option EpIndex)
    (resp : TitleResp) (lang : String) (series : SeriesInfo) (ep : EpisodeInfo)
    (st : DBState) : Option String × DBState :=
  let key := blacklistKey .title series ep
  if is_blacklisted now retry st.blacklist .title key then (none, st)
  else
    let r := set_tmdb_id env series st
    match findResult with
    | none => (none, ⟨r.state.id_map, update_blacklist now .title key r.state.blacklist⟩)
    | some _ =>
      match resp with
      | .notFound => (none, ⟨r.state.id_map, update_blacklist now .title key r.state.blacklist⟩)
      | .found nm =>
        if is_generic_title nm lang ep then
          (none, ⟨r.state.id_map, update_blacklist now .title key r.state.blacklist⟩)
        else (some nm, r.state)

/-- TMDbInterface.get_source_image (lines 465-526).  stillsResp is none
when the stills key is absent from the images response (the temporary-fix
branch at lines 508-510, which returns None with no blacklist update) and
some stills otherwise.  Outcome: the returned URL and the state after the
call. -/
def get_source_image (now : Int) (retry : Int) (env : TmdbIdEnv) (findResult : Option EpIndex)
    (stillsResp : Option (List TmdbImage)) (minW minH : Nat) (series : SeriesInfo)
    (ep : EpisodeInfo) (st : DBState) : Option String × DBState :=
  let key := blacklistKey .image series ep
  if is_blacklisted now retry st.blacklist .image key then (none, st)
  else
    let r := set_tmdb_id env series st
    match findResult with
    | none => (none, ⟨r.state.id_map, update_blacklist now .image key r.state.blacklist⟩)
    | some _ =>
      match stillsResp with
      | none => (none, r.state)
      | some [] => (none, ⟨r.state.id_map, update_blacklist now .image key r.state.blacklist⟩)
      | some (s0 :: stills) =>
        match determine_best_image minW minH (s0 :: stills) with
        | none => (none, ⟨r.state.id_map, update_blacklist now .image key r.state.blacklist⟩)
        | some best => (some ("https://image.tmdb.org/t/p/original" ++ best.file_path), r.state)

/-- The empty blacklist, __EMPTY_BLACKLIST. -/
def emptyBlacklist : Blacklist := ⟨[], [], []⟩

/-- Concrete series for witnesses: Show (2020), no IDs. -/
def series0 : SeriesInfo := ⟨"Show", 2020, none, none⟩

/-- Concrete episode for witnesses: season 1 episode 5, no absolute
number. -/
def ep0 : EpisodeInfo := ⟨"1-5", 1, 5, none⟩

/-- Concrete provider environment for witnesses: no find results, zero
search results. -/
def env0 : TmdbIdEnv := ⟨[], 0, []⟩

/-- Concrete state for witnesses: empty maps, empty blacklist. -/
def st0 : DBState := ⟨⟨[], []⟩, emptyBlacklist⟩

/-- Concrete blacklist with one image entry at 5 failures, next time 10. -/
def bl1 : Blacklist := ⟨[("k", ⟨5, 10⟩)], [], []⟩

/-- The two candidates of the selector-determinism example: 100 by 100
score 5, and 200 by 50 score 9. -/
def pairImages : List TmdbImage :=
  [⟨"/a.jpg", 100, 100, 5⟩, ⟨"/b.jpg", 200, 50, 9⟩]

/-- Candidates exhibiting the dummy-accumulator corner of
__determine_best_image: the first is below the minimum height, the second
survives but has zero pixel area and zero score. -/
def cexImages : List TmdbImage :=
  [⟨"/a.jpg", 10, 1, 9⟩, ⟨"/b.jpg", 0, 5, 0⟩]

/-- Logos exhibiting the stale-initializer corner of get_series_logo: a
large jpg first, then a small english png. -/
def cexLogos : List Logo :=
  [⟨"/a.jpg", "en", 1000, 1000⟩, ⟨"/b.png", "en", 10, 10⟩]

/-- Concrete season table for the Tier 4 witness: season 0 exists with one
episode, every later season reports not found. -/
def c6Fetch : Nat → SeasonResp :=
  fun t => if t = 0 then SeasonResp.found [⟨"Alpha", 0, 1⟩] else SeasonResp.notFound

/-- Concrete title predicate for the Tier 4 witness: titleMatches only Beta. -/
def c6Matches : String → Bool :=
  fun n => decide (n = "Beta")

/-- Concrete absolute-number query table for the Tier 2 witness: only
season 1 yields a result. -/
def c7Query : Nat → Nat → EpDetailResp :=
  fun s a => if s = 1 then EpDetailResp.found ⟨"Gamma", s, a⟩ else EpDetailResp.notFound

/- End of definitions.  Theorems follow. -/

/-- Looking up the key just written by aset yields the written value. -/
theorem alookup_aset_self {α β : Type} [DecidableEq α] (l : List (α × β)) (k : α) (v : β) :
    alookup (aset l k v) k = some v := by
  induction l with
  | nil => simp [aset, alookup]
  | cons p rest ih =>
    obtain ⟨k', v'⟩ := p
    by_cases h : k' = k
    · simp [aset, h, alookup]
    · simp [aset, h, alookup, ih]

/-- Reading back the section just replaced by setEntries. -/
theorem entries_setEntries (bl : Blacklist) (qt : QueryType) (m : EntryMap) :
    (bl.setEntries qt m).entries qt = m := by
  cases qt <;> rfl

/-- C1: __update_blacklist on an absent key inserts failures 1 and next
one day from now; on a present key with now at or past next it increments
failures by exactly 1 and resets next to one day from now; on a present
key before next it changes nothing, so repeated failures within the same
waiting window never inflate the count. -/
theorem update_blacklist_spec (bl : Blacklist) (qt : QueryType) (key : String) (now : Int) :
    (alookup (bl.entries qt) key = none →
      alookup ((update_blacklist now qt key bl).entries qt) key = some ⟨1, now + oneDay⟩) ∧
    (∀ e, alookup (bl.entries qt) key = some e → now ≥ e.next →
      alookup ((update_blacklist now qt key bl).entries qt) key =
        some ⟨e.failures + 1, now + oneDay⟩) ∧
    (∀ e, alookup (bl.entries qt) key = some e → now < e.next →
      update_blacklist now qt key bl = bl) := by
  refine ⟨?_, ?_, ?_⟩
  · intro h
    simp only [update_blacklist, h]
    rw [entries_setEntries, alookup_aset_self]
  · intro e h hge
    simp only [update_blacklist, h]
    rw [if_pos hge, entries_setEntries, alookup_aset_self]
  · intro e h hlt
    simp only [update_blacklist, h]
    rw [if_neg (by omega)]

/-- C1 witness: on the empty blacklist, recording an image failure for key
k at time 0 inserts an entry with one failure and next time oneDay. -/
theorem update_blacklist_spec_witness :
    alookup (emptyBlacklist.entries QueryType.image) "k" = none ∧
    alookup ((update_blacklist 0 QueryType.image "k" emptyBlacklist).entries QueryType.image) "k" =
      some ⟨1, 0 + oneDay⟩ :=
  ⟨rfl, (update_blacklist_spec emptyBlacklist QueryType.image "k" 0).1 rfl⟩

/-- C2: __is_blacklisted returns false on an absent key; true on a present
key whose failures exceed the retry threshold, at every time (so also
after next has passed); and otherwise true exactly when now is before
next. -/
theorem is_blacklisted_spec (bl : Blacklist) (qt : QueryType) (key : String)
    (now retry : Int) :
    (alookup (bl.entries qt) key = none → is_blacklisted now retry bl qt key = false) ∧
    (∀ e, alookup (bl.entries qt) key = some e → e.failures > retry →
      is_blacklisted now retry bl qt key = true) ∧
    (∀ e, alookup (bl.entries qt) key = some e → e.failures ≤ retry →
      (is_blacklisted now retry bl qt key = true ↔ now < e.next)) := by
  refine ⟨?_, ?_, ?_⟩
  · intro h
    simp [is_blacklisted, h]
  · intro e h hgt
    simp [is_blacklisted, h, hgt]
  · intro e h hle
    simp [is_blacklisted, h]
    omega

/-- C2 witness: on a blacklist whose image entry for k has 5 failures and
next time 10, with retry threshold 3, the key is blacklisted at time 100,
long after next has passed. -/
theorem is_blacklisted_spec_witness :
    alookup (bl1.entries QueryType.image) "k" = some ⟨5, 10⟩ ∧
    is_blacklisted 100 3 bl1 QueryType.image "k" = true :=
  ⟨by decide, (is_blacklisted_spec bl1 QueryType.image "k" 100 3).2.1 ⟨5, 10⟩ (by decide) (by decide)⟩

/-- C3: the logo selection loop of get_series_logo evaluated at a list
whose first element is a large english jpg followed by a small english
png.  Both candidates are filtered or compared, yet the returned logo is
the jpg, which never passed the transparent-format filter: best is
initialized to logos[0] before any filtering, and the surviving png never
exceeds its pixel count. -/
theorem get_series_logo_pick_eval :
    get_series_logo_pick cexLogos = some ⟨"/a.jpg", "en", 1000, 1000⟩ ∧
    logoTransparent ⟨"/a.jpg", "en", 1000, 1000⟩ = false := by
  decide

/-- C4: the repair pass evaluated at a blacklist whose image section maps
k to an empty dict.  The elif chain only adds failures and leaves the
entry without a next field, so the repaired cache still holds an entry on
which __is_blacklisted and __update_blacklist would raise a KeyError. -/
theorem fix_blacklist_eval :
    fixBlacklist 0 (some ⟨some [("k", RawEntry.entry none none)], none, none⟩) =
      ⟨[("k", RawEntry.entry (some (RawField.rint 1)) none)], [], []⟩ ∧
    wellFormedRawEntry (RawEntry.entry (some (RawField.rint 1)) none) = false := by
  decide

/-- Scanning seasons that all exist and contain no title match skips
forward: the Tier 4 loop over j + m seasons starting at a equals the loop
over the last m seasons starting at a + j. -/
theorem tier4ScanFrom_skip (fetch : Nat → SeasonResp) (tm : String → Bool) :
    ∀ (j a m : Nat),
      (∀ t, a ≤ t → t < a + j →
        ∃ eps, fetch t = SeasonResp.found eps ∧ firstTitleMatch tm eps = none) →
      tier4ScanFrom fetch tm a (j + m) = tier4ScanFrom fetch tm (a + j) m := by
  intro j
  induction j with
  | zero => intro a m _; simp
  | succ j ih =>
    intro a m h
    obtain ⟨eps, hf, hn⟩ := h a le_rfl (by omega)
    have hj : j + 1 + m = (j + m) + 1 := by omega
    rw [hj]
    show tier4ScanFrom fetch tm a ((j + m) + 1) = _
    simp only [tier4ScanFrom, hf, hn]
    rw [ih (a + 1) m (fun t h1 h2 => h t (by omega) (by omega))]
    congr 1
    omega

/-- C6: in the Tier 4 exhaustive scan, seasons are visited in ascending
order from 0 to the episode season number; once every season before s
exists and holds no title match, a not-found fetch of season s aborts the
whole search with None (no later season is scanned), while a fetched
season s returns its first title match. -/
theorem tier4_scan_spec (fetch : Nat → SeasonResp) (tm : String → Bool)
    (seasonNumber s : Nat) (hs : s ≤ seasonNumber)
    (hbefore : ∀ t, t < s →
      ∃ eps, fetch t = SeasonResp.found eps ∧ firstTitleMatch tm eps = none) :
    (fetch s = SeasonResp.notFound → tier4Scan fetch tm seasonNumber = none) ∧
    (∀ eps r, fetch s = SeasonResp.found eps → firstTitleMatch tm eps = some r →
      tier4Scan fetch tm seasonNumber = some r) := by
  have hsplit : seasonNumber + 1 = s + (seasonNumber + 1 - s) := by omega
  have key : tier4Scan fetch tm seasonNumber =
      tier4ScanFrom fetch tm s ((seasonNumber - s) + 1) := by
    unfold tier4Scan
    rw [hsplit, tier4ScanFrom_skip fetch tm s 0 (seasonNumber + 1 - s)
      (fun t _ h2 => hbefore t (by omega))]
    have h1 : 0 + s = s := by omega
    have h2 : seasonNumber + 1 - s = (seasonNumber - s) + 1 := by omega
    rw [h1, h2]
  constructor
  · intro hnf
    rw [key]
    simp only [tier4ScanFrom, hnf]
  · intro eps r hf hm
    rw [key]
    simp only [tier4ScanFrom, hf, hm]

/-- C6 witness: with a season table whose season 0 exists with a single
non-matching episode and whose season 1 reports not found, the Tier 4
scan up to season 1 aborts with None. -/
theorem tier4_scan_spec_witness :
    (1 ≤ 1) ∧ tier4Scan c6Fetch c6Matches 1 = none := by
  refine ⟨le_rfl, ?_⟩
  refine (tier4_scan_spec c6Fetch c6Matches 1 1 le_rfl ?_).1 (by decide)
  intro t ht
  have h0 : t = 0 := by omega
  subst h0
  exact ⟨[⟨"Alpha", 0, 1⟩], rfl, by decide⟩

/-- Descending over seasons that all report not found above s, the
absolute-number loop stops at season s, the first season from the top that
yields a result. -/
theorem absDescendScan_first (q : Nat → Nat → EpDetailResp) (a : Nat) :
    ∀ (n s : Nat), s ≤ n → (∀ t, s < t → t ≤ n → q t a = EpDetailResp.notFound) →
      ∀ info, q s a = EpDetailResp.found info →
        absDescendScan q a n = EpDetailResp.found info := by
  intro n
  induction n with
  | zero =>
    intro s hs _ info hf
    have h0 : s = 0 := by omega
    subst h0
    simpa [absDescendScan] using hf
  | succ n ih =>
    intro s hs h info hf
    by_cases hsn : s = n + 1
    · subst hsn
      simp only [absDescendScan, hf]
    · have hnf : q (n + 1) a = EpDetailResp.notFound := h (n + 1) (by omega) le_rfl
      simp only [absDescendScan, hnf]
      exact ih s (by omega) (fun t h1 h2 => h t h1 (by omega)) info hf

/-- C7: the absolute-number fallback of Tier 2 runs only when the direct
season/episode query reports not found and an absolute number is known (a
found direct response, or an unknown absolute number, passes the direct
response through); when it runs, it queries seasons descending from the
episode season number with the absolute number as episode index and stops
at the first season that yields a result. -/
theorem tier2_abs_fallback_spec (direct : EpDetailResp) (q : Nat → Nat → EpDetailResp)
    (a seasonNumber s : Nat) :
    (∀ info, direct = EpDetailResp.found info →
      tier2AbsFallback direct q (some a) seasonNumber = direct) ∧
    (tier2AbsFallback direct q none seasonNumber = direct) ∧
    (s ≤ seasonNumber → (∀ t, s < t → t ≤ seasonNumber → q t a = EpDetailResp.notFound) →
      direct = EpDetailResp.notFound →
      ∀ info, q s a = EpDetailResp.found info →
        tier2AbsFallback direct q (some a) seasonNumber = EpDetailResp.found info) := by
  refine ⟨?_, ?_, ?_⟩
  · intro info h
    subst h
    rfl
  · cases direct <;> rfl
  · intro hs hnone hd info hf
    subst hd
    simpa [tier2AbsFallback] using
      absDescendScan_first q a seasonNumber s hs hnone info hf

/-- C7 witness: with the direct query not found, absolute number 5 known,
and a query table where only season 1 yields a result among seasons 2, 1,
0, the fallback returns the season-1 result found first in descending
order. -/
theorem tier2_abs_fallback_spec_witness :
    (1 ≤ 2) ∧
    tier2AbsFallback EpDetailResp.notFound c7Query (some 5) 2 =
      EpDetailResp.found ⟨"Gamma", 1, 5⟩ := by
  refine ⟨by omega, ?_⟩
  refine (tier2_abs_fallback_spec EpDetailResp.notFound c7Query 5 2 1).2.2
    (by omega) ?_ rfl ⟨"Gamma", 1, 5⟩ (by decide)
  intro t h1 h2
  have ht : t = 2 := by omega
  subst ht
  decide

/-- The title/year search step never touches the blacklist. -/
theorem tmdb_search_step_blacklist (env : TmdbIdEnv) (series : SeriesInfo) (st : DBState) :
    (tmdb_search_step env series st).state.blacklist = st.blacklist := by
  unfold tmdb_search_step
  split
  · rfl
  · split <;> rfl

/-- The find-by-TVDb step never touches the blacklist. -/
theorem tmdb_find_step_blacklist (env : TmdbIdEnv) (series : SeriesInfo) (st : DBState) :
    (tmdb_find_step env series st).state.blacklist = st.blacklist := by
  unfold tmdb_find_step
  split
  · exact tmdb_search_step_blacklist env series st
  · split
    · rfl
    · exact tmdb_search_step_blacklist env series st

/-- The name-map step never touches the blacklist. -/
theorem tmdb_name_step_blacklist (env : TmdbIdEnv) (series : SeriesInfo) (st : DBState) :
    (tmdb_name_step env series st).state.blacklist = st.blacklist := by
  unfold tmdb_name_step
  split
  · split
    · rfl
    · exact tmdb_find_step_blacklist env series st
  · exact tmdb_find_step_blacklist env series st

/-- __set_tmdb_id leaves the blacklist untouched in every outcome. -/
theorem set_tmdb_id_blacklist (env : TmdbIdEnv) (series : SeriesInfo) (st : DBState) :
    (set_tmdb_id env series st).state.blacklist = st.blacklist := by
  unfold set_tmdb_id
  split
  · split
    · rfl
    · exact tmdb_name_step_blacklist env series st
  · exact tmdb_name_step_blacklist env series st

/-- C8: __set_tmdb_id leaves the blacklist map unchanged in every outcome;
and when the secondary ID is absent, the name map has no entry, and the
title/year search returns zero total results, the whole call returns the
state unchanged with the search performed, so a second call on the same
unresolved identity performs the provider search again instead of being
suppressed. -/
theorem set_tmdb_id_spec (env : TmdbIdEnv) (series : SeriesInfo) (st : DBState) :
    (set_tmdb_id env series st).state.blacklist = st.blacklist ∧
    (series.tvdb_id = none → alookup st.id_map.names series.full_name = none →
      env.total_results = 0 →
      set_tmdb_id env series st = ⟨series, st, true⟩ ∧
      set_tmdb_id env (set_tmdb_id env series st).series (set_tmdb_id env series st).state =
        ⟨series, st, true⟩) := by
  refine ⟨set_tmdb_id_blacklist env series st, ?_⟩
  intro htv hname htot
  have h1 : set_tmdb_id env series st = ⟨series, st, true⟩ := by
    unfold set_tmdb_id
    rw [htv]
    show tmdb_name_step env series st = _
    unfold tmdb_name_step
    rw [hname]
    show tmdb_find_step env series st = _
    unfold tmdb_find_step
    rw [htv]
    show tmdb_search_step env series st = _
    unfold tmdb_search_step
    rw [if_pos htot]
  refine ⟨h1, ?_⟩
  rw [h1]
  exact h1

/-- C8 witness: Show (2020) with no secondary ID, an empty ID map, and a
zero-result search: the call returns the state unchanged with the search
performed. -/
theorem set_tmdb_id_spec_witness :
    series0.tvdb_id = none ∧ env0.total_results = 0 ∧
    set_tmdb_id env0 series0 st0 = ⟨series0, st0, true⟩ :=
  ⟨rfl, rfl, ((set_tmdb_id_spec env0 series0 st0).2 rfl rfl rfl).1⟩

/-- A dict keyed only by dash-free strings has no entry for a key that
contains a dash. -/
theorem alookup_of_no_dash (l : List (String × String))
    (hl : ∀ p ∈ l, hasDash p.1 = false) (lang : String) (hd : hasDash lang = true) :
    alookup l lang = none := by
  induction l with
  | nil => rfl
  | cons p rest ih =>
    obtain ⟨k, v⟩ := p
    have hk : hasDash k = false := hl ⟨k, v⟩ (by simp)
    have hne : k ≠ lang := by
      intro h
      rw [h] at hk
      rw [hk] at hd
      cases hd
    simp only [alookup, if_neg hne]
    exact ih (fun p hp => hl p (by simp [hp]))

/-- C10: for the default language code en-US, and any region-qualified
code containing a dash, the generic-format table (keyed only by bare
two-letter codes) has no entry, so __is_generic_title always returns
false, the generic-title blacklisting branch of get_episode_title never
fires, and the translated title is returned with the blacklist unchanged,
even when the title equals the generic Episode N form. -/
theorem generic_title_region_spec (lang title nm : String) (ep : EpisodeInfo)
    (now retry : Int) (env : TmdbIdEnv) (idx : EpIndex) (series : SeriesInfo) (st : DBState)
    (hdash : hasDash lang = true)
    (hbl : is_blacklisted now retry st.blacklist QueryType.title
      (blacklistKey QueryType.title series ep) = false) :
    is_generic_title title lang ep = false ∧
    (get_episode_title now retry env (some idx) (TitleResp.found nm) lang series ep st).1 =
      some nm ∧
    (get_episode_title now retry env (some idx) (TitleResp.found nm) lang series ep st).2.blacklist =
      st.blacklist := by
  have hlook : alookup GENERIC_TITLE_FORMATS lang = none :=
    alookup_of_no_dash GENERIC_TITLE_FORMATS (by decide) lang hdash
  have hgen : ∀ t, is_generic_title t lang ep = false := by
    intro t
    unfold is_generic_title
    rw [hlook]
  have hcall : get_episode_title now retry env (some idx) (TitleResp.found nm) lang series ep st =
      (some nm, (set_tmdb_id env series st).state) := by
    simp [get_episode_title, hbl, hgen nm]
  refine ⟨hgen title, ?_, ?_⟩
  · rw [hcall]
  · rw [hcall]
    exact set_tmdb_id_blacklist env series st

/-- C10 witness: under the default code en-US, the literal generic form
Episode 5 for season 1 episode 5 is not detected as generic and is
returned as the title. -/
theorem generic_title_region_spec_witness :
    hasDash "en-US" = true ∧
    is_generic_title "Episode 5" "en-US" ep0 = false ∧
    (get_episode_title 0 3 env0 (some ⟨1, 5⟩) (TitleResp.found "Episode 5") "en-US"
      series0 ep0 st0).1 = some "Episode 5" := by
  have h := generic_title_region_spec "en-US" "Episode 5" "Episode 5" ep0 0 3 env0 ⟨1, 5⟩
    series0 st0 (by decide) (by decide)
  exact ⟨by decide, h.1, h.2.1⟩

/-- C5 counterexample: a non-blacklisted episode whose images response is
missing the stills field.  get_source_image returns None, yet the
blacklist afterwards still has no entry for the image key: no failure was
recorded, contrary to the claim. -/
theorem get_source_image_missing_stills_cex :
    is_blacklisted 0 3 st0.blacklist QueryType.image
      (blacklistKey QueryType.image series0 ep0) = false ∧
    get_source_image 0 3 env0 (some ⟨1, 1⟩) none 0 0 series0 ep0 st0 = (none, st0) ∧
    alookup ((get_source_image 0 3 env0 (some ⟨1, 1⟩) none 0 0 series0 ep0 st0).2.blacklist.entries
      QueryType.image) (blacklistKey QueryType.image series0 ep0) = none := by
  decide

/-- C5 (amended): for a non-blacklisted episode whose provider response is
missing the stills field, get_source_image returns None without recording
a blacklist failure: the state is the post-resolution state and its
blacklist equals the input blacklist. -/
theorem get_source_image_missing_stills (now retry : Int) (env : TmdbIdEnv) (idx : EpIndex)
    (minW minH : Nat) (series : SeriesInfo) (ep : EpisodeInfo) (st : DBState)
    (hbl : is_blacklisted now retry st.blacklist QueryType.image
      (blacklistKey QueryType.image series ep) = false) :
    get_source_image now retry env (some idx) none minW minH series ep st =
      (none, (set_tmdb_id env series st).state) ∧
    (get_source_image now retry env (some idx) none minW minH series ep st).2.blacklist =
      st.blacklist := by
  have h1 : get_source_image now retry env (some idx) none minW minH series ep st =
      (none, (set_tmdb_id env series st).state) := by
    simp [get_source_image, hbl]
  refine ⟨h1, ?_⟩
  rw [h1]
  exact set_tmdb_id_blacklist env series st

/-- C5 amended witness: concrete non-blacklisted call with the stills
field missing returns None with the resolution-step state. -/
theorem get_source_image_missing_stills_witness :
    is_blacklisted 5 3 st0.blacklist QueryType.image
      (blacklistKey QueryType.image series0 ep0) = false ∧
    get_source_image 5 3 env0 (some ⟨2, 2⟩) none 1 1 series0 ep0 st0 =
      (none, (set_tmdb_id env0 series0 st0).state) :=
  ⟨by decide, (get_source_image_missing_stills 5 3 env0 ⟨2, 2⟩ 1 1 series0 ep0 st0 (by decide)).1⟩

/-- The selection order is reflexive. -/
theorem lexGe_refl (c : TmdbImage) : lexGe c c :=
  Or.inr ⟨rfl, le_rfl⟩

/-- The selection order is transitive. -/
theorem lexGe_trans (a b c : TmdbImage) (h1 : lexGe a b) (h2 : lexGe b c) : lexGe a c := by
  unfold lexGe at h1 h2 ⊢
  omega

/-- pickStep returns one of its two arguments. -/
theorem pickStep_cases (b c : TmdbImage) : pickStep b c = b ∨ pickStep b c = c := by
  unfold pickStep
  split
  · right; rfl
  · split
    · right; rfl
    · left; rfl

/-- pickStep beats-or-ties the incumbent. -/
theorem lexGe_pickStep_left (b c : TmdbImage) : lexGe (pickStep b c) b := by
  unfold pickStep
  split
  · exact Or.inl (by omega)
  · split
    · next h => exact Or.inr ⟨h.1.symm, by omega⟩
    · exact lexGe_refl b

/-- pickStep beats-or-ties the challenger. -/
theorem lexGe_pickStep_right (b c : TmdbImage) : lexGe (pickStep b c) c := by
  unfold pickStep
  split
  · exact lexGe_refl c
  · split
    · exact lexGe_refl c
    · next h1 h2 =>
      unfold lexGe
      omega

/-- The fold of pickStep yields the initial element or a list element. -/
theorem foldl_pickStep_mem (l : List TmdbImage) :
    ∀ b : TmdbImage, l.foldl pickStep b = b ∨ l.foldl pickStep b ∈ l := by
  induction l with
  | nil => intro b; left; rfl
  | cons c rest ih =>
    intro b
    simp only [List.foldl_cons]
    rcases ih (pickStep b c) with h | h
    · rcases pickStep_cases b c with hb | hc
      · left; rw [h, hb]
      · right; rw [h, hc]; exact List.mem_cons_self c rest
    · right; exact List.mem_cons_of_mem c h

/-- The fold of pickStep beats-or-ties the initial element and every list
element. -/
theorem foldl_pickStep_ge (l : List TmdbImage) :
    ∀ b : TmdbImage, lexGe (l.foldl pickStep b) b ∧ ∀ c ∈ l, lexGe (l.foldl pickStep b) c := by
  induction l with
  | nil => intro b; exact ⟨lexGe_refl b, by simp⟩
  | cons c rest ih =>
    intro b
    simp only [List.foldl_cons]
    obtain ⟨h1, h2⟩ := ih (pickStep b c)
    refine ⟨lexGe_trans _ _ _ h1 (lexGe_pickStep_left b c), ?_⟩
    intro d hd
    rcases List.mem_cons.mp hd with h | h
    · rw [h]
      exact lexGe_trans _ _ _ h1 (lexGe_pickStep_right b c)
    · exact h2 d h

/-- Once the loop of __determine_best_image has seen a survivor, its
accumulator tracks an image of the original list coherently (index,
pixels and score all agree), and the final winner is the pickStep fold of
the remaining survivors seeded with the tracked image. -/
theorem determineLoop_validPhase (minW minH : Nat) :
    ∀ (l images : List TmdbImage) (i : Nat) (b : BestAcc) (bImg : TmdbImage),
      (∀ j, l.get? j = images.get? (i + j)) →
      images.get? b.idx = some bImg →
      b.pixels = bImg.height * bImg.width →
      b.score = bImg.vote_average →
      (determineLoop minW minH l i b true).2 = true ∧
      ∃ rImg, images.get? (determineLoop minW minH l i b true).1.idx = some rImg ∧
        rImg = (l.filter (fun c =>
          meets_minimum_resolution minW minH c.width c.height)).foldl pickStep bImg := by
  intro l
  induction l with
  | nil =>
    intro images i b bImg hsuf hb hpix hsc
    exact ⟨rfl, bImg, hb, rfl⟩
  | cons img rest ih =>
    intro images i b bImg hsuf hb hpix hsc
    have hgeti : images.get? i = some img := by
      have h0 := hsuf 0
      simpa using h0.symm
    have hsuf' : ∀ j, rest.get? j = images.get? (i + 1 + j) := by
      intro j
      have h1 := hsuf (j + 1)
      have h2 : i + (j + 1) = i + 1 + j := by omega
      rw [h2] at h1
      simpa using h1
    by_cases hm : meets_minimum_resolution minW minH img.width img.height = true
    · by_cases h1 : img.height * img.width > b.pixels
      · have hstep : determineLoop minW minH (img :: rest) i b true =
            determineLoop minW minH rest (i + 1)
              ⟨i, img.height * img.width, img.vote_average⟩ true := by
          simp [determineLoop, hm, h1]
        have hps : pickStep bImg img = img := by
          unfold pickStep
          rw [if_pos (by omega)]
        obtain ⟨hv, rImg, hget, hr⟩ := ih images (i + 1)
          ⟨i, img.height * img.width, img.vote_average⟩ img hsuf' hgeti rfl rfl
        refine ⟨by rw [hstep]; exact hv, rImg, by rw [hstep]; exact hget, ?_⟩
        rw [hr]
        simp [List.filter_cons, hm, hps]
      · by_cases h2 : img.height * img.width = b.pixels ∧ img.vote_average > b.score
        · have hstep : determineLoop minW minH (img :: rest) i b true =
              determineLoop minW minH rest (i + 1)
                ⟨i, img.height * img.width, img.vote_average⟩ true := by
            simp [determineLoop, hm, h1, h2]
          have hps : pickStep bImg img = img := by
            unfold pickStep
            rw [if_neg (by omega), if_pos (by omega)]
          obtain ⟨hv, rImg, hget, hr⟩ := ih images (i + 1)
            ⟨i, img.height * img.width, img.vote_average⟩ img hsuf' hgeti rfl rfl
          refine ⟨by rw [hstep]; exact hv, rImg, by rw [hstep]; exact hget, ?_⟩
          rw [hr]
          simp [List.filter_cons, hm, hps]
        · have hstep : determineLoop minW minH (img :: rest) i b true =
              determineLoop minW minH rest (i + 1) b true := by
            simp [determineLoop, hm, h1, h2]
          have hps : pickStep bImg img = bImg := by
            unfold pickStep
            rw [if_neg (by omega), if_neg (by omega)]
          obtain ⟨hv, rImg, hget, hr⟩ := ih images (i + 1) b bImg hsuf' hb hpix hsc
          refine ⟨by rw [hstep]; exact hv, rImg, by rw [hstep]; exact hget, ?_⟩
          rw [hr]
          simp [List.filter_cons, hm, hps]
    · have hstep : determineLoop minW minH (img :: rest) i b true =
          determineLoop minW minH rest (i + 1) b true := by
        simp [determineLoop, hm]
      obtain ⟨hv, rImg, hget, hr⟩ := ih images (i + 1) b bImg hsuf' hb hpix hsc
      refine ⟨by rw [hstep]; exact hv, rImg, by rw [hstep]; exact hget, ?_⟩
      rw [hr]
      simp [List.filter_cons, hm]

/-- Before any survivor is seen, the loop of __determine_best_image keeps
the dummy accumulator; when every candidate has positive dimensions, the
first survivor takes over the accumulator and the valid phase applies. -/
theorem determineLoop_invalidPhase (minW minH : Nat) :
    ∀ (l images : List TmdbImage) (i : Nat),
      (∀ j, l.get? j = images.get? (i + j)) →
      (∀ c ∈ l, 0 < c.width ∧ 0 < c.height) →
      ((l.filter (fun c => meets_minimum_resolution minW minH c.width c.height) = []) →
        determineLoop minW minH l i ⟨0, 0, 0⟩ false = (⟨0, 0, 0⟩, false)) ∧
      (∀ c cs, l.filter (fun c => meets_minimum_resolution minW minH c.width c.height) = c :: cs →
        (determineLoop minW minH l i ⟨0, 0, 0⟩ false).2 = true ∧
        ∃ rImg, images.get? (determineLoop minW minH l i ⟨0, 0, 0⟩ false).1.idx = some rImg ∧
          rImg = cs.foldl pickStep c) := by
  intro l
  induction l with
  | nil =>
    intro images i _ _
    refine ⟨fun _ => rfl, fun c cs h => ?_⟩
    simp at h
  | cons img rest ih =>
    intro images i hsuf hpos
    have hgeti : images.get? i = some img := by
      have h0 := hsuf 0
      simpa using h0.symm
    have hsuf' : ∀ j, rest.get? j = images.get? (i + 1 + j) := by
      intro j
      have h1 := hsuf (j + 1)
      have h2 : i + (j + 1) = i + 1 + j := by omega
      rw [h2] at h1
      simpa using h1
    have hpos' : ∀ c ∈ rest, 0 < c.width ∧ 0 < c.height :=
      fun c hc => hpos c (List.mem_cons_of_mem img hc)
    by_cases hm : meets_minimum_resolution minW minH img.width img.height = true
    · have hpix : img.height * img.width > 0 := by
        have h := hpos img (List.mem_cons_self img rest)
        exact Nat.mul_pos h.2 h.1
      have hstep : determineLoop minW minH (img :: rest) i ⟨0, 0, 0⟩ false =
          determineLoop minW minH rest (i + 1)
            ⟨i, img.height * img.width, img.vote_average⟩ true := by
        simp [determineLoop, hm, hpix]
      constructor
      · intro hfil
        simp [List.filter_cons, hm] at hfil
      · intro c cs hfil
        simp only [List.filter_cons, hm, if_pos] at hfil
        rw [List.cons_eq_cons] at hfil
        obtain ⟨hc, hcs⟩ := hfil
        obtain ⟨hv, rImg, hget, hr⟩ := determineLoop_validPhase minW minH rest images (i + 1)
          ⟨i, img.height * img.width, img.vote_average⟩ img hsuf' hgeti rfl rfl
        refine ⟨by rw [hstep]; exact hv, rImg, by rw [hstep]; exact hget, ?_⟩
        rw [hr, hc, hcs]
    · have hstep : determineLoop minW minH (img :: rest) i ⟨0, 0, 0⟩ false =
          determineLoop minW minH rest (i + 1) ⟨0, 0, 0⟩ false := by
        simp [determineLoop, hm]
      obtain ⟨ihnil, ihcons⟩ := ih images (i + 1) hsuf' hpos'
      constructor
      · intro hfil
        simp only [List.filter_cons, hm] at hfil
        rw [hstep]
        exact ihnil (by simpa using hfil)
      · intro c cs hfil
        simp only [List.filter_cons, hm] at hfil
        obtain ⟨hv, rImg, hget, hr⟩ := ihcons c cs (by simpa using hfil)
        exact ⟨by rw [hstep]; exact hv, rImg, by rw [hstep]; exact hget, hr⟩

/-- C9 (amended): for candidate lists in which every candidate has
positive width and height, __determine_best_image equals the spec
selector pickBestImageSpec on the survivors of the minimum-resolution
filter; hence it never returns a candidate below the minimum, the
returned candidate beats-or-ties every survivor (more pixels, or equal
pixels and at least the score, first-encountered winning all ties), and
the result is None exactly when no candidate survives. -/
theorem determine_best_image_amended (minW minH : Nat) (images : List TmdbImage)
    (hpos : ∀ c ∈ images, 0 < c.width ∧ 0 < c.height) :
    determine_best_image minW minH images =
      pickBestImageSpec (images.filter (fun c =>
        meets_minimum_resolution minW minH c.width c.height)) ∧
    (∀ r, determine_best_image minW minH images = some r →
      meets_minimum_resolution minW minH r.width r.height = true ∧ r ∈ images ∧
      ∀ c ∈ images, meets_minimum_resolution minW minH c.width c.height = true → lexGe r c) ∧
    (determine_best_image minW minH images = none ↔
      images.filter (fun c => meets_minimum_resolution minW minH c.width c.height) = []) := by
  have hinv := determineLoop_invalidPhase minW minH images images 0 (fun j => by simp) hpos
  have hmain : determine_best_image minW minH images =
      pickBestImageSpec (images.filter (fun c =>
        meets_minimum_resolution minW minH c.width c.height)) := by
    cases hfil : images.filter (fun c => meets_minimum_resolution minW minH c.width c.height) with
    | nil =>
      unfold determine_best_image
      rw [hinv.1 hfil]
      simp [pickBestImageSpec]
    | cons c cs =>
      obtain ⟨hvalid, rImg, hget, hr⟩ := hinv.2 c cs hfil
      unfold determine_best_image
      show (if (determineLoop minW minH images 0 ⟨0, 0, 0⟩ false).2 = true then
        images.get? (determineLoop minW minH images 0 ⟨0, 0, 0⟩ false).1.idx else none) = _
      rw [if_pos hvalid, hget, hr]
      rfl
  refine ⟨hmain, ?_, ?_⟩
  · intro r hrEq
    rw [hmain] at hrEq
    cases hfil : images.filter (fun c =>
        meets_minimum_resolution minW minH c.width c.height) with
    | nil =>
      rw [hfil] at hrEq
      cases hrEq
    | cons c cs =>
      rw [hfil] at hrEq
      have hr : cs.foldl pickStep c = r := Option.some.inj hrEq
      have hmem : r ∈ images.filter (fun c =>
          meets_minimum_resolution minW minH c.width c.height) := by
        rw [hfil]
        rcases foldl_pickStep_mem cs c with h | h
        · rw [← hr, h]
          exact List.mem_cons_self c cs
        · rw [← hr]
          exact List.mem_cons_of_mem c h
      have hmf := List.mem_filter.mp hmem
      refine ⟨hmf.2, hmf.1, ?_⟩
      intro c' hc' hm'
      have hcmem : c' ∈ images.filter (fun c =>
          meets_minimum_resolution minW minH c.width c.height) :=
        List.mem_filter.mpr ⟨hc', hm'⟩
      rw [hfil] at hcmem
      rcases List.mem_cons.mp hcmem with h | h
      · rw [h, ← hr]
        exact (foldl_pickStep_ge cs c).1
      · rw [← hr]
        exact (foldl_pickStep_ge cs c).2 c' h
  · rw [hmain]
    cases hfil : images.filter (fun c =>
        meets_minimum_resolution minW minH c.width c.height) with
    | nil => simp [pickBestImageSpec]
    | cons c cs => simp [pickBestImageSpec]

/-- C9 witness: both candidates of the selector-determinism example have
positive dimensions, and the selector returns the second, 200 by 50 with
score 9, which ties the first on pixel area and beats it on score. -/
theorem determine_best_image_amended_witness :
    (∀ c ∈ pairImages, 0 < c.width ∧ 0 < c.height) ∧
    determine_best_image 1 1 pairImages = some ⟨"/b.jpg", 200, 50, 9⟩ :=
  ⟨by decide, ((determine_best_image_amended 1 1 pairImages (by decide)).1).trans (by decide)⟩

/-- C9 counterexample to the unamended claim: with minimum resolution 0 by
5 and candidates 10 by 1 score 9 (below the minimum height) and 0 by 5
score 0 (a surviving candidate with zero pixel area and zero score), the
selector returns the first candidate even though its height 1 is below
the minimum 5: the zero-pixel survivor never replaces the dummy
accumulator, whose index 0 still points at the filtered-out candidate. -/
theorem determine_best_image_cex :
    determine_best_image 0 5 cexImages = some ⟨"/a.jpg", 10, 1, 9⟩ ∧
    meets_minimum_resolution 0 5 10 1 = false := by
  decide
